import Mathlib

/-!
Verification of the sidechain bridge module (lib/sidechain/sidechain.js and the
mainchain RPC client) against its design specification.

The JavaScript source is embedded shallowly: JS values that flow through the
option records and RPC parameter lists are modelled by the inductive `JSVal`;
`assert` from the bsert collaborator becomes `jsAssert` in the `Except JSError`
monad; an RPC dispatch (`this.execute(path, method, params)`) is modelled by
returning the dispatched `RPCCall` record, since the transport is an external
collaborator. Every embedded function follows the source statement by
statement, including its defects (the source guards only the first statement
after an unbraced `if`, so several "validated" assignments are in fact
unconditional).
-/

/-- A JavaScript runtime value, restricted to the shapes that flow through the
sidechain module: numbers, strings, booleans, Buffers (byte lists), generic
heap objects carried with a descriptive tag (scripts, network parameter sets,
header maps, promises), `null`, and `undefined`. -/
inductive JSVal where
  | num (n : Int)
  | str (s : String)
  | boolv (b : Bool)
  | buf (bytes : List Int)
  | obj (tag : String)
  | nullVal
  | undef
deriving DecidableEq, Repr

/-- Errors the embedded code can raise: a failed bsert `assert`, a reference
to an unbound identifier (strict mode `ReferenceError`), and a property access
on `null`/`undefined` (`TypeError`). -/
inductive JSError where
  | assertionError
  | referenceError (name : String)
  | typeError (name : String)
deriving DecidableEq, Repr

/-- The JS `typeof` operator on the modelled value shapes (`typeof null` is
the string "object"). -/
def typeofStr : JSVal → String
  | .num _ => "number"
  | .str _ => "string"
  | .boolv _ => "boolean"
  | .buf _ => "object"
  | .obj _ => "object"
  | .nullVal => "object"
  | .undef => "undefined"

/-- The JS loose test `v != null`, true unless `v` is `null` or `undefined`
(both compare loosely equal to `null`). This is the presence check the option
merges use. -/
def jsPresent : JSVal → Bool
  | .nullVal => false
  | .undef => false
  | _ => true

/-- Buffer.isBuffer from the Buffer collaborator: true exactly on Buffer
values. -/
def isBuffer : JSVal → Bool
  | .buf _ => true
  | _ => false

/-- The bsert collaborator: `assert(b)` throws an `AssertionError` when `b`
is false and otherwise continues. -/
def jsAssert (b : Bool) : Except JSError Unit :=
  if b then .ok () else .error .assertionError

/-- Numeric content of a decimal digit string; `none` models a string whose
JS ToNumber coercion is NaN. Only nonempty all-digit strings parse. -/
def digitStringToNat? (s : String) : Option Nat :=
  if s.data ≠ [] ∧ s.data.all Char.isDigit then
    some (s.data.foldl (fun a c => a * 10 + (c.toNat - 48)) 0)
  else
    none

/-- The JS relational test `v >= m` under numeric coercion, for the value
shapes these operations receive: numbers compare directly, `null` coerces to
0, booleans to 0 or 1, a nonempty digit string parses, and the remaining
shapes coerce to NaN, on which every relational comparison is false. -/
def jsGeInt (v : JSVal) (m : Int) : Bool :=
  match v with
  | .num n => decide (m ≤ n)
  | .nullVal => decide (m ≤ 0)
  | .boolv b => decide (m ≤ (if b then (1 : Int) else 0))
  | .str s =>
      match digitStringToNat? s with
      | some n => decide (m ≤ (n : Int))
      | none => false
  | _ => false

/-- The compound bsert check `typeof v === string and v.length === 64`
(short-circuit: the length is only read on strings, so no TypeError can
arise). -/
def jsStr64 : JSVal → Bool
  | .str s => s.length == 64
  | _ => false

/-- The property read `v.length === 64` when evaluated on its own (the
right-hand side of the defective `or` in sendBMMRequest): strings and Buffers
have a length, reading `.length` of `null` or `undefined` throws a TypeError,
and on other shapes the property is `undefined`, which is not `=== 64`. -/
def jsLenEq64 : JSVal → Except JSError Bool
  | .str s => .ok (s.length == 64)
  | .buf bytes => .ok (bytes.length == 64)
  | .nullVal => .error (.typeError "length")
  | .undef => .error (.typeError "length")
  | _ => .ok false

/-- One dispatched JSON-RPC round trip: endpoint path, method name, and the
positional parameter list, exactly as handed to `this.execute`. -/
structure RPCCall where
  path : String
  method : String
  params : List JSVal
deriving DecidableEq, Repr

/-- Whether an embedded operation reached its dispatch (produced an RPC call)
rather than throwing during validation. -/
def dispatched (r : Except JSError RPCCall) : Bool :=
  match r with
  | .ok _ => true
  | .error _ => false

/-- Modelled from the spec: `common.THIS_SIDECHAIN`, the own sidechain slot id
of this node (module lib/blockchain/common is not under src/). The spec fixes
no numeric value; the claims only compare against it, so the regtest testchain
slot 0 stands in. -/
def THIS_SIDECHAIN : Int := 0

/-! ## SidechainObject (the SidechainEntry of the spec) -/

/-- The five fields of a `SidechainObject` as JS values (`undef` models a
field holding `undefined` after a defective merge). -/
structure SidechainObject where
  sidechain : JSVal
  hash : JSVal
  script : JSVal
  type : JSVal
  version : JSVal
deriving DecidableEq, Repr

/-- Field values an options object supplies to the SidechainObject merge;
`undef` marks an absent field. -/
structure SidechainOptions where
  sidechain : JSVal
  hash : JSVal
  script : JSVal
  type : JSVal
  version : JSVal
deriving DecidableEq, Repr

/-- Constructor defaults of `SidechainObject`: `this.sidechain =
common.THIS_SIDECHAIN; this.hash = EMPTY; this.script = new Script();
this.type = -1; this.version = -1`. -/
def SidechainObject.defaults : SidechainObject :=
  { sidechain := .num THIS_SIDECHAIN
    hash := .buf []
    script := .obj "script"
    type := .num (-1)
    version := .num (-1) }

/-- SidechainObject.prototype.fromOptions, statement by statement. JS has no
indentation-based blocks, so in
`if (options.sidechain != null) assert(...); this.sidechain = options.sidechain;`
the `if` guards only the assert and the assignment is unconditional; the same
holds for script, type and version. The hash check reads the unbound
identifier `hash` (not `options.hash`), so whenever `options.hash` is present
the strict-mode lookup throws a ReferenceError. The routine ends by
reassigning all five fields from the options once more. -/
def SidechainObject.fromOptions (st : SidechainObject) (options : SidechainOptions) :
    Except JSError SidechainObject := do
  if jsPresent options.sidechain then
    jsAssert (typeofStr options.sidechain == "number")
  let st := { st with sidechain := options.sidechain }
  if jsPresent options.hash then
    throw (JSError.referenceError "hash")
  let st := { st with hash := options.hash }
  if jsPresent options.script then
    jsAssert (typeofStr options.script == "object")
  let st := { st with script := options.script }
  if jsPresent options.type then
    jsAssert (typeofStr options.type == "number")
  let st := { st with type := options.type }
  if jsPresent options.version then
    jsAssert (typeofStr options.version == "number")
  let st := { st with version := options.version }
  let st :=
    { st with
      sidechain := options.sidechain
      hash := options.hash
      script := options.script
      type := options.type
      version := options.version }
  return st

/-- The SidechainObject constructor: defaults, then `fromOptions` when an
options value was passed. -/
def SidechainObject.construct (options : Option SidechainOptions) :
    Except JSError SidechainObject :=
  match options with
  | none => .ok SidechainObject.defaults
  | some o => SidechainObject.fromOptions SidechainObject.defaults o

/-- A concrete 32-byte hash payload used as the entryHash of the C1 scenario. -/
def bytes32 : List Int := List.replicate 32 171

/-- The options of the C1 construction step: sidechainId 3, a 32-byte
entryHash, entryType 1 (spec field names sidechainId/entryHash/entryType are
the source fields sidechain/hash/type). -/
def c1ConstructOptions : SidechainOptions :=
  { sidechain := .num 3, hash := .buf bytes32, script := .undef
    type := .num 1, version := .undef }

/-- The entry the C1 scenario intends to have after construction (sidechain 3,
the 32-byte hash, type 1, remaining fields at their defaults). -/
def c1IntendedEntry : SidechainObject :=
  { sidechain := .num 3, hash := .buf bytes32, script := .obj "script"
    type := .num 1, version := .num (-1) }

/-- The options of the C1 merge step: only entryType 2 is supplied. -/
def c1MergeOptions : SidechainOptions :=
  { sidechain := .undef, hash := .undef, script := .undef
    type := .num 2, version := .undef }

/-! ## MainchainOptions (the BridgeConfig of the spec) -/

/-- Modelled from the spec: the network-parameter registry
(lib/protocol/network is not under src/) supplies, for the module-level
default `Network.get(regtest)`, the designated mainchain RPC port of the
regtest chain. The exact number is immaterial to the claims. -/
def regtestMainchainPort : Int := 18443

/-- The six configuration fields of `MainchainOptions`, as JS values. -/
structure MainchainOptionsState where
  network : JSVal
  port : JSVal
  headers : JSVal
  host : JSVal
  username : JSVal
  password : JSVal
deriving DecidableEq, Repr

/-- Field values an options object supplies to MainchainOptions.fromOptions;
`undef` marks an absent field. -/
structure MainchainOptsInput where
  network : JSVal
  port : JSVal
  host : JSVal
  headers : JSVal
  username : JSVal
  password : JSVal
deriving DecidableEq, Repr

/-- MainchainOptions constructor defaults: the module-level regtest network,
its mainchain RPC port, the JSON content-type header map, host "localhost",
username "user", password "password". -/
def MainchainOptions.defaults : MainchainOptionsState :=
  { network := .obj "regtest"
    port := .num regtestMainchainPort
    headers := .obj "content-type-json"
    host := .str "localhost"
    username := .str "user"
    password := .str "password" }

/-- MainchainOptions.prototype.fromOptions, statement by statement. After
`assert(options)` the routine first assigns all six fields unconditionally
from the options (overwriting every default, with `undefined` for absent
fields), and only then runs the five guarded present-and-typed blocks, which
reassign the already-assigned values. `headers` has no guarded block at all. -/
def MainchainOptions.fromOptions (st : MainchainOptionsState)
    (options : MainchainOptsInput) : Except JSError MainchainOptionsState := do
  let st :=
    { st with
      network := options.network
      port := options.port
      host := options.host
      headers := options.headers
      username := options.username
      password := options.password }
  let st ← do
    if jsPresent options.network then
      jsAssert (typeofStr options.network == "object")
      pure { st with network := options.network }
    else pure st
  let st ← do
    if jsPresent options.port then
      jsAssert (typeofStr options.port == "number")
      pure { st with port := options.port }
    else pure st
  let st ← do
    if jsPresent options.host then
      jsAssert (typeofStr options.host == "string")
      pure { st with host := options.host }
    else pure st
  let st ← do
    if jsPresent options.username then
      jsAssert (typeofStr options.username == "string")
      pure { st with username := options.username }
    else pure st
  let st ← do
    if jsPresent options.password then
      jsAssert (typeofStr options.password == "string")
      pure { st with password := options.password }
    else pure st
  return st

/-- The MainchainOptions constructor: defaults, then `fromOptions` when an
options value was passed. -/
def MainchainOptions.construct (options : Option MainchainOptsInput) :
    Except JSError MainchainOptionsState :=
  match options with
  | none => .ok MainchainOptions.defaults
  | some o => MainchainOptions.fromOptions MainchainOptions.defaults o

/-! ## MainchainClient (the BridgeClient of the spec) -/

/-- The mutable state of a MainchainClient: the `opened` flag set in the
constructor, the options record, and the option fields the constructor copies
onto the client (network, port, host, headers, username, password; the copy
onto `this.socket.port` lives in the transport collaborator). -/
structure MainchainClient where
  opened : Bool
  options : MainchainOptionsState
  network : JSVal
  port : JSVal
  host : JSVal
  headers : JSVal
  username : JSVal
  password : JSVal
deriving DecidableEq, Repr

/-- The MainchainClient constructor: `this.opened = false`, build the
MainchainOptions from the passed options, and copy its fields onto the
client. -/
def MainchainClient.construct (options : Option MainchainOptsInput) :
    Except JSError MainchainClient := do
  let opts ← MainchainOptions.construct options
  return { opened := false
           options := opts
           network := opts.network
           port := opts.port
           host := opts.host
           headers := opts.headers
           username := opts.username
           password := opts.password }

/-- MainchainClient.prototype.open: `async open() { return this; }` — the
client is returned unchanged and no field is assigned. -/
def MainchainClient.open (c : MainchainClient) : MainchainClient := c

/-- MainchainClient.prototype.close: `async close() { return this.close(); }`
— the body consists of one self-invocation and nothing else. The fuel
argument bounds the recursion depth (the JS call stack); `none` means the
call has not completed within that depth, and no transport release is ever
performed on any path. -/
def MainchainClient.close : Nat → Option Unit
  | 0 => none
  | fuel + 1 => MainchainClient.close fuel

/-- MainchainClient.prototype.broadcastWithdrawalBundle:
`assert(typeof hash === string and hash.length === 64)`, then dispatch
`receivewithdrawalbundle` with `[sidechain, hash]`. -/
def MainchainClient.broadcastWithdrawalBundle (sidechain hash : JSVal) :
    Except JSError RPCCall := do
  jsAssert (jsStr64 hash)
  return { path := "/", method := "receivewithdrawalbundle"
           params := [sidechain, hash] }

/-- MainchainClient.prototype.verifyDeposit: two 64-char string checks on the
block hash and txid, then `assert(typeof tx >= 0)` — a relational comparison
between the typeof string and the number 0 — then dispatch `verifydeposit`. -/
def MainchainClient.verifyDeposit (hashMainBlock txid tx : JSVal) :
    Except JSError RPCCall := do
  jsAssert (jsStr64 hashMainBlock)
  jsAssert (jsStr64 txid)
  jsAssert (jsGeInt (.str (typeofStr tx)) 0)
  return { path := "/", method := "verifydeposit"
           params := [hashMainBlock, txid, tx] }

/-- Modelled from the spec: the amount collaborator (lib/btc/amount is not
under src/) wraps a numeric value; `new Amount(v)` is a fresh heap
allocation, so the record carries the allocation identity `ref` in addition
to the value — JS strict equality on two Amount objects compares references,
which `DecidableEq` on this record reflects, since distinct allocations get
distinct refs. -/
structure AmountObj where
  ref : Nat
  value : Int
deriving DecidableEq, Repr

/-- Modelled from the spec: `Amount.prototype.toString`, the canonical
decimal-string rendering of the wrapped numeric value produced by the amount
collaborator (stand-in: decimal rendering of the integer, injective on
values). -/
def AmountObj.toStr (a : AmountObj) : String := toString a.value

/-- Modelled from the spec: `consensus.CRITICAL_DATA_AMT`, the fixed
critical-data amount of the protocol (lib/protocol/consensus is not under
src/). The spec fixes no numeric value; any fixed nonzero constant serves the
claims. -/
def CRITICAL_DATA_AMT : Int := 10000

/-- Modelled from the spec: `consensus.SIDECHAIN_BUILD_TAR_HASH`, the fixed
build tarball hash constant of this node (lib/protocol/consensus is not under
src/). -/
def SIDECHAIN_BUILD_TAR_HASH : String := "build-tar-hash-constant"

/-- Modelled from the spec: `consensus.SIDECHAIN_BUILD_COMMIT_HASH`, the
fixed build commit hash constant of this node (lib/protocol/consensus is not
under src/). -/
def SIDECHAIN_BUILD_COMMIT_HASH : String := "build-commit-hash-constant"

/-- MainchainClient.prototype.sendBMMRequest. The two hash checks use `or`
where the surrounding checks use `and`, so any string passes regardless of
length and the length is only read on non-strings. The zero test
`amt === new Amount(0)` strict-compares the freshly allocated `amt` against
another fresh allocation, so it compares distinct references (refs 0 and 1)
and the critical-data substitution branch is dead. Dispatches
`createbmmcriticaldatatx` with the rendered amount first. -/
def MainchainClient.sendBMMRequest (amount : Int)
    (height criticalHash sidechain prevMainBlock : JSVal) :
    Except JSError RPCCall := do
  jsAssert (typeofStr height == "number")
  let chOk ← if typeofStr criticalHash == "string" then pure true
             else jsLenEq64 criticalHash
  jsAssert chOk
  let pmbOk ← if typeofStr prevMainBlock == "string" then pure true
              else jsLenEq64 prevMainBlock
  jsAssert pmbOk
  jsAssert (jsGeInt sidechain 0)
  let amt : AmountObj := { ref := 0, value := amount }
  let zeroAmt : AmountObj := { ref := 1, value := 0 }
  let amt := if amt == zeroAmt then { ref := 2, value := CRITICAL_DATA_AMT }
             else amt
  return { path := "/", method := "createbmmcriticaldatatx"
           params := [.str amt.toStr, height, criticalHash, sidechain,
                      prevMainBlock] }

/-- MainchainClient.prototype.createSidechainProposal: six bsert checks, then
dispatch `createsidechainproposal` whose last two positional parameters are
the consensus build constants `tar` and `commit`; the caller-supplied hashID
and hashID2 are only type-checked and never dispatched. -/
def MainchainClient.createSidechainProposal
    (sidechain name desc version hashID hashID2 : JSVal) :
    Except JSError RPCCall := do
  jsAssert (jsGeInt sidechain THIS_SIDECHAIN)
  jsAssert (typeofStr name == "string")
  jsAssert (typeofStr desc == "string")
  jsAssert (jsGeInt version 0)
  jsAssert (typeofStr hashID == "string")
  jsAssert (typeofStr hashID2 == "string")
  return { path := "/", method := "createsidechainproposal"
           params := [sidechain, name, desc, version,
                      .str SIDECHAIN_BUILD_TAR_HASH,
                      .str SIDECHAIN_BUILD_COMMIT_HASH] }

/-- MainchainClient.prototype.isConnected, for the run in which the
getBlockCount RPC would resolve to the given count. The local `blocks` is
assigned the promise object returned by `.then(...)`; the callback that would
overwrite `blocks` with the resolved count runs only after this function has
returned, so the strict comparison `blocks === zero` sees a promise object
against the number 0, is false, and the else branch sets the connection flag
to true. -/
def MainchainClient.isConnected (_resolvedBlockCount : Int) : Bool :=
  let zero : JSVal := .num 0
  let blocks : JSVal := .obj "promise"
  if blocks == zero then false else true

/-! ## Shared material for the theorems -/

@[simp]
theorem except_ok_bind (a : A) (f : A → Except E B) :
    (Except.ok a >>= f : Except E B) = f a := rfl

@[simp]
theorem except_error_bind (e : E) (f : A → Except E B) :
    (Except.error e >>= f : Except E B) = Except.error e := rfl

/-- A 64-character hex string (64 times the character a). -/
def h64a : String := String.mk (List.replicate 64 'a')

/-- A second 64-character hex string (64 times the character b). -/
def h64b : String := String.mk (List.replicate 64 'b')

/-- A 63-character hex string, one character short of the wire format. -/
def h63a : String := String.mk (List.replicate 63 'a')

/-- Whether every character of the string is a lowercase hexadecimal digit. -/
def isHexString (s : String) : Bool :=
  s.data.all (fun c => c.isDigit || ('a' ≤ c && c ≤ 'f'))

/-- The client states reachable through the public lifecycle: a state produced
by the constructor, or the result of `open()` on a reachable state. `close()`
contributes no successor state because its body never completes (it consists
of one self-invocation, see `MainchainClient.close`), and every RPC operation
only reads the client while building its dispatch, assigning no field. -/
inductive MainchainClient.Reachable : MainchainClient → Prop where
  | constructed (options : Option MainchainOptsInput) (c : MainchainClient)
      (h : MainchainClient.construct options = .ok c) :
      MainchainClient.Reachable c
  | stepOpen (c : MainchainClient) (h : MainchainClient.Reachable c) :
      MainchainClient.Reachable (MainchainClient.open c)

/-- The client state built by the constructor when no options are passed. -/
def defaultClient : MainchainClient :=
  { opened := false, options := MainchainOptions.defaults
    network := .obj "regtest", port := .num regtestMainchainPort
    host := .str "localhost", headers := .obj "content-type-json"
    username := .str "user", password := .str "password" }

/-- The MainchainOptions input of the C5 scenario: only the port field is
supplied. -/
def c5Options : MainchainOptsInput :=
  { network := .undef, port := .num 8332, host := .undef, headers := .undef
    username := .undef, password := .undef }

/-! ## Claims -/

/-- C1: the claim states that merge assigns only present, well-typed fields,
that absent fields retain their value, and that the construct-then-merge
scenario (sidechainId 3, 32-byte entryHash, entryType 1; then entryType 2
only) ends with sidechainId 3 and the entryHash unchanged. The code does the
opposite: constructing with a present hash throws a ReferenceError (the guard
reads the unbound identifier `hash`), and merging the intended entry with an
options value carrying only the type overwrites sidechain, hash, script and
version with `undefined`, because every assignment sits outside its guard and
the routine ends with five unconditional reassignments. -/
theorem C1_sidechainEntry_merge_defect :
    SidechainObject.construct (some c1ConstructOptions)
      = .error (.referenceError "hash")
    ∧ SidechainObject.fromOptions c1IntendedEntry c1MergeOptions
      = .ok { sidechain := .undef, hash := .undef, script := .undef
              type := .num 2, version := .undef } :=
  ⟨rfl, rfl⟩

/-- C2: the claim states that sendBMMRequest with amount 0 dispatches the
fixed critical-data amount as the amount parameter. The code compares the
freshly allocated Amount against another fresh allocation with strict
equality, which is reference comparison, so the substitution branch is dead:
with amount 0 the dispatched amount parameter is the canonical string of 0,
which differs from the canonical string of CRITICAL_DATA_AMT. -/
theorem C2_sendBMMRequest_zero_amount_defect :
    MainchainClient.sendBMMRequest 0 (.num 7) (.str h64a) (.num 0) (.str h64b)
      = .ok { path := "/", method := "createbmmcriticaldatatx"
              params := [.str "0", .num 7, .str h64a, .num 0, .str h64b] }
    ∧ AmountObj.toStr { ref := 2, value := CRITICAL_DATA_AMT } = "10000"
    ∧ ("0" : String) ≠ "10000" :=
  ⟨rfl, rfl, by decide⟩

/-- C3: for any two createSidechainProposal calls that differ only in the
caller-supplied hash arguments (both pairs strings), the dispatched RPC calls
are identical, and any dispatched parameter list carries the fixed consensus
build constants in the tar-hash and commit-hash positions, never the
caller-supplied hashes. -/
theorem C3_createSidechainProposal_build_hashes_invariant
    (sidechain name desc version hA hB hA2 hB2 : JSVal)
    (h1 : typeofStr hA = "string") (h2 : typeofStr hB = "string")
    (h3 : typeofStr hA2 = "string") (h4 : typeofStr hB2 = "string") :
    MainchainClient.createSidechainProposal sidechain name desc version hA hB
      = MainchainClient.createSidechainProposal sidechain name desc version
          hA2 hB2
    ∧ ∀ c : RPCCall,
        MainchainClient.createSidechainProposal sidechain name desc version
            hA hB = .ok c →
        c.params = [sidechain, name, desc, version,
                    .str SIDECHAIN_BUILD_TAR_HASH,
                    .str SIDECHAIN_BUILD_COMMIT_HASH] := by
  constructor
  · unfold MainchainClient.createSidechainProposal
    rw [h1, h2, h3, h4]
  · intro c hc
    unfold MainchainClient.createSidechainProposal at hc
    rw [h1, h2] at hc
    cases g1 : jsGeInt sidechain THIS_SIDECHAIN <;> rw [g1] at hc <;>
      cases g2 : (typeofStr name == "string") <;> rw [g2] at hc <;>
        cases g3 : (typeofStr desc == "string") <;> rw [g3] at hc <;>
          cases g4 : jsGeInt version 0 <;> rw [g4] at hc <;>
            simp [jsAssert] at hc
    rw [← hc]

/-- C3 witness: two concrete createSidechainProposal calls differing only in
the caller-supplied hash pair dispatch identically. -/
theorem C3_createSidechainProposal_build_hashes_invariant_witness :
    MainchainClient.createSidechainProposal (.num 0) (.str "sc") (.str "d")
        (.num 0) (.str "caller-tar-1") (.str "caller-commit-1")
      = MainchainClient.createSidechainProposal (.num 0) (.str "sc")
          (.str "d") (.num 0) (.str "caller-tar-2") (.str "caller-commit-2") :=
  (C3_createSidechainProposal_build_hashes_invariant
    (.num 0) (.str "sc") (.str "d") (.num 0)
    (.str "caller-tar-1") (.str "caller-commit-1")
    (.str "caller-tar-2") (.str "caller-commit-2") rfl rfl rfl rfl).1

/-- C4: the claim states that isConnected returns false exactly when
getBlockCount resolves to 0. The code compares the promise object bound to
`blocks` against the number 0 with strict equality before the resolution
callback can run, so the comparison is false and isConnected returns true for
every resolved count — in particular also when the count resolves to 0. -/
theorem C4_isConnected_always_true :
    MainchainClient.isConnected 0 = true
    ∧ ∀ n : Int, MainchainClient.isConnected n = true :=
  ⟨rfl, fun _ => rfl⟩

/-- C5: the claim states that fields absent from the options keep their
defaults. The code first overwrites all six fields unconditionally from the
options, so merging the defaults with an options value carrying only a port
leaves network, headers, host, username and password `undefined`, although
the defaults carry the regtest network, the JSON headers, localhost, user and
password. -/
theorem C5_mainchainOptions_merge_defect :
    MainchainOptions.fromOptions MainchainOptions.defaults c5Options
      = .ok { network := .undef, port := .num 8332, headers := .undef
              host := .undef, username := .undef, password := .undef }
    ∧ MainchainOptions.defaults.host = .str "localhost"
    ∧ MainchainOptions.defaults.username = .str "user"
    ∧ MainchainOptions.defaults.password = .str "password" :=
  ⟨rfl, rfl, rfl, rfl⟩

/-- C6: the claim states that close terminates, transitions the client to
closed, and releases the transport exactly once, never by re-invoking itself.
The body of close is exactly one self-invocation, so for every recursion
depth the call has not completed and no transport release is ever reached. -/
theorem C6_close_never_completes :
    ∀ fuel : Nat, MainchainClient.close fuel = none := by
  intro fuel
  induction fuel with
  | zero => rfl
  | succ n ih => simpa [MainchainClient.close] using ih

/-- C7: the claim states that a criticalHash that is not a 64-character hex
string fails validation before any dispatch. The check uses a disjunction
(typeof string or length 64), so every string passes regardless of length:
with a 63-character criticalHash the createbmmcriticaldatatx call is
dispatched. -/
theorem C7_sendBMMRequest_hash_validation_defect :
    MainchainClient.sendBMMRequest 5 (.num 7) (.str h63a) (.num 0) (.str h64b)
      = .ok { path := "/", method := "createbmmcriticaldatatx"
              params := [.str "5", .num 7, .str h63a, .num 0, .str h64b] }
    ∧ h63a.length ≠ 64 :=
  ⟨rfl, by decide⟩

/-- C8: for every 64-character hex string and every nonnegative sidechain id,
broadcastWithdrawalBundle dispatches exactly one receivewithdrawalbundle call
with the sidechain id and the hash as its positional parameters, and for
every string whose length is not 64 the call fails validation before any
dispatch. -/
theorem C8_broadcastWithdrawalBundle_dispatch (s : Int) (h : String)
    (hs : 0 ≤ s) (hlen : h.length = 64) (hhex : isHexString h = true) :
    MainchainClient.broadcastWithdrawalBundle (.num s) (.str h)
      = .ok { path := "/", method := "receivewithdrawalbundle"
              params := [.num s, .str h] }
    ∧ ∀ h2 : String, h2.length ≠ 64 →
        MainchainClient.broadcastWithdrawalBundle (.num s) (.str h2)
          = .error .assertionError := by
  constructor
  · simp [MainchainClient.broadcastWithdrawalBundle, jsStr64, jsAssert, hlen]
  · intro h2 hne
    simp [MainchainClient.broadcastWithdrawalBundle, jsStr64, jsAssert, hne]

/-- C8 witness: with sidechain id 0 and a concrete 64-character hex string the
dispatch is the receivewithdrawalbundle call with those parameters. -/
theorem C8_broadcastWithdrawalBundle_dispatch_witness :
    MainchainClient.broadcastWithdrawalBundle (.num 0) (.str h64a)
      = .ok { path := "/", method := "receivewithdrawalbundle"
              params := [.num 0, .str h64a] } :=
  (C8_broadcastWithdrawalBundle_dispatch 0 h64a (by decide) (by decide)
    (by decide)).1

/-- C9: for every argument triple, the third verifyDeposit precondition
relationally compares the typeof string of the transaction against 0, which
coerces the string to NaN and is false for every value, so verifyDeposit
throws an AssertionError and the verifydeposit dispatch is unreachable. -/
theorem C9_verifyDeposit_unreachable (hmb txid tx : JSVal) :
    jsGeInt (.str (typeofStr tx)) 0 = false
    ∧ MainchainClient.verifyDeposit hmb txid tx = .error .assertionError := by
  have hge : jsGeInt (.str (typeofStr tx)) 0 = false := by cases tx <;> rfl
  refine ⟨hge, ?_⟩
  cases g1 : jsStr64 hmb <;> cases g2 : jsStr64 txid <;>
    simp [MainchainClient.verifyDeposit, jsAssert, g1, g2, hge]

/-- C10: the opened flag is false in every reachable client state: the
constructor sets it to false, open returns the client without assigning it,
close never completes, and no other operation assigns a field. -/
theorem C10_opened_invariant (c : MainchainClient)
    (h : MainchainClient.Reachable c) : c.opened = false := by
  induction h with
  | constructed options c hc =>
      unfold MainchainClient.construct at hc
      cases hopt : MainchainOptions.construct options with
      | ok opts => rw [hopt] at hc; simp at hc; rw [← hc]
      | error e => rw [hopt] at hc; simp at hc
  | stepOpen c hc ih => simpa [MainchainClient.open] using ih

/-- C10 witness: the client built by the option-less constructor is reachable
and its opened flag is false. -/
theorem C10_opened_invariant_witness : defaultClient.opened = false :=
  C10_opened_invariant defaultClient
    (MainchainClient.Reachable.constructed none defaultClient rfl)
